import Mathlib

/-!
Shallow embedding of the Miss Belle clinic-management application.

The embedding covers the two rule-bearing subsystems and the signup flow:

* the appointment data model, the client-side conflict pre-check
  (`CreateAppointmentModal.checkConflict` in `src/components/Layout.tsx`),
  the insert in `CreateAppointmentModal.handleSubmit`, the storage-level
  `UNIQUE (professional_id, appointment_date, appointment_time)` constraint
  from the migration, and the status buttons of `AppointmentDetailsModal`;
* the cash-register lifecycle: `CashRegister.createClosing`,
  `AddTransactionModal.handleSubmit`, `TransactionsModal.deleteTransaction`,
  `TransactionsModal.updateTotal` and `TransactionsModal.finalizeClosing`
  from `src/pages/CashRegister.tsx`, together with the row-level-security
  policies of the migration (`cash_register_transactions` and
  `cash_register_closings`);
* `AuthProvider.signUp` from `src/contexts/AuthContext.tsx`.

Text fields are kept as `String`, dates / times / timestamps / identifiers as
`Nat`, and monetary values (SQL `numeric(10,2)`) as `Int` numbers of cents so
that sums are exact.  A store is a quadruple of tables; every operation is a
pure function from a store (plus the caller's identity) to a store and a
result, mirroring one request/response cycle of the client.
-/

namespace MissBelle

/-- Profile role, from the `CHECK (role IN ('super_admin', 'user'))` column. -/
inductive Role where
  | superAdmin
  | user
deriving DecidableEq

/-- Appointment status, from the
`CHECK (status IN ('scheduled', 'confirmed', 'completed', 'cancelled'))` column. -/
inductive ApptStatus where
  | scheduled
  | confirmed
  | completed
  | cancelled
deriving DecidableEq, Fintype

/-- A row of the `profiles` table. -/
structure Profile where
  id : Nat
  email : String
  fullName : String
  role : Role
  isActive : Bool
deriving DecidableEq

/-- A row of the `appointments` table. -/
structure Appointment where
  id : Nat
  patientId : Nat
  procedureId : Nat
  professionalId : Nat
  appointmentDate : Nat
  appointmentTime : Nat
  status : ApptStatus
  cancellationReason : Option String
  createdBy : Option Nat
deriving DecidableEq

/-- A row of the `cash_register_closings` table.  `totalAmount` is in cents. -/
structure Closing where
  id : Nat
  professionalId : Nat
  closingDate : Nat
  totalAmount : Int
  notes : Option String
  isFinalized : Bool
  finalizedAt : Option Nat
deriving DecidableEq

/-- A row of the `cash_register_transactions` table.  `amount` is in cents. -/
structure Txn where
  id : Nat
  closingId : Nat
  appointmentId : Option Nat
  amount : Int
  paymentMethod : String
  notes : Option String
deriving DecidableEq

/-- The datastore: the four tables the modelled operations touch.  Rows are
kept in insertion order, so `created_at` ascending coincides with list order. -/
structure Store where
  profiles : List Profile
  appointments : List Appointment
  closings : List Closing
  transactions : List Txn
deriving DecidableEq

/-- `EXISTS (SELECT 1 FROM profiles WHERE profiles.id = auth.uid() AND
profiles.role = 'super_admin')` — the sub-query shared by the super-admin
policies of the migration. -/
def isSuperAdminIn (s : Store) (uid : Nat) : Bool :=
  s.profiles.any (fun p => p.id == uid && p.role == Role.superAdmin)

/-! ### Row-level security for `cash_register_transactions`

The migration declares exactly four policies on the table; they are embedded
as data so that the set of commands they cover is itself inspectable. -/

/-- SQL policy command tag (`FOR SELECT`, `FOR INSERT`, ...). -/
inductive Cmd where
  | select
  | insert
  | update
  | delete
  | all
deriving DecidableEq

/-- One `CREATE POLICY ... ON cash_register_transactions` statement:
its command tag, its `USING` predicate and its `WITH CHECK` predicate,
each evaluated against the store, the caller id and the candidate row. -/
structure TxnPolicy where
  policyName : String
  cmd : Cmd
  usingPred : Store → Nat → Txn → Bool
  checkPred : Store → Nat → Txn → Bool

/-- The four policies on `cash_register_transactions` from the migration:
two `SELECT` policies and two `INSERT` policies, nothing else. -/
def cashRegisterTransactionsPolicies : List TxnPolicy :=
  [ { policyName := "Users can view own transactions"
      cmd := Cmd.select
      usingPred := fun s uid t =>
        s.closings.any (fun c => c.id == t.closingId && c.professionalId == uid)
      checkPred := fun _ _ _ => true },
    { policyName := "Super admins can view all transactions"
      cmd := Cmd.select
      usingPred := fun s uid _ => isSuperAdminIn s uid
      checkPred := fun _ _ _ => true },
    { policyName := "Users can create own transactions"
      cmd := Cmd.insert
      usingPred := fun _ _ _ => true
      checkPred := fun s uid t =>
        s.closings.any (fun c =>
          c.id == t.closingId && c.professionalId == uid && c.isFinalized == false) },
    { policyName := "Super admins can create any transaction"
      cmd := Cmd.insert
      usingPred := fun _ _ _ => true
      checkPred := fun s uid _ => isSuperAdminIn s uid } ]

/-- An `INSERT` into `cash_register_transactions` is admitted when some
`INSERT` (or `ALL`) policy's `WITH CHECK` clause accepts the new row. -/
def canInsertTxn (s : Store) (uid : Nat) (t : Txn) : Bool :=
  cashRegisterTransactionsPolicies.any (fun p =>
    (p.cmd == Cmd.insert || p.cmd == Cmd.all) && p.checkPred s uid t)

/-- A row of `cash_register_transactions` is visible to a `DELETE` when some
`DELETE` (or `ALL`) policy's `USING` clause accepts it; rows not visible are
silently skipped, they do not raise an error. -/
def canDeleteTxn (s : Store) (uid : Nat) (t : Txn) : Bool :=
  cashRegisterTransactionsPolicies.any (fun p =>
    (p.cmd == Cmd.delete || p.cmd == Cmd.all) && p.usingPred s uid t)

/-- `UPDATE` on `cash_register_closings`: the union of the `USING` clauses of
`"Users can update own non-finalized closings"`
(`professional_id = auth.uid() AND is_finalized = false`) and
`"Super admins can update any closing"`. -/
def canUpdateClosing (s : Store) (uid : Nat) (c : Closing) : Bool :=
  (c.professionalId == uid && c.isFinalized == false) || isSuperAdminIn s uid

/-- `UPDATE` on `appointments`: the union of the `USING` clauses of
`"Users can update own appointments"` and
`"Super admins can update any appointment"`. -/
def canUpdateAppt (s : Store) (uid : Nat) (a : Appointment) : Bool :=
  a.professionalId == uid || isSuperAdminIn s uid

/-! ### Appointments -/

/-- `CreateAppointmentModal.checkConflict` (Layout.tsx): select appointments
with `professional_id = p`, `appointment_date = d`, `appointment_time = h` and
`status != 'cancelled'`; the conflict flag is whether any row matched. -/
def checkConflict (s : Store) (p d h : Nat) : Bool :=
  s.appointments.any (fun a =>
    a.professionalId == p && a.appointmentDate == d && a.appointmentTime == h &&
      !(a.status == ApptStatus.cancelled))

/-- Whether two appointment rows agree on the
`(professional_id, appointment_date, appointment_time)` triple. -/
def sameTriple (a b : Appointment) : Bool :=
  a.professionalId == b.professionalId && a.appointmentDate == b.appointmentDate &&
    a.appointmentTime == b.appointmentTime

/-- Storage-level insert into `appointments`: the primary key and the
`UNIQUE (professional_id, appointment_date, appointment_time)` constraint —
the latter over every row regardless of status.  `none` is a
`ConstraintError`. -/
def dbInsertAppointment (s : Store) (a : Appointment) : Option Store :=
  if s.appointments.any (fun b => b.id == a.id) then none
  else if s.appointments.any (fun b => sameTriple b a) then none
  else some { s with appointments := s.appointments ++ [a] }

/-- Result of an appointment-creation attempt. -/
inductive CreateApptResult where
  | ok
  | conflictError
  | constraintError
deriving DecidableEq

/-- The row `CreateAppointmentModal.handleSubmit` inserts: the form fields of
the candidate with `status: 'scheduled'` and no cancellation reason. -/
def scheduledRow (a : Appointment) : Appointment :=
  { a with status := ApptStatus.scheduled, cancellationReason := none }

/-- `CreateAppointmentModal.handleSubmit` over a current conflict flag: if the
pre-check found a non-cancelled appointment at the candidate's slot the form
errors out without inserting; otherwise the insert is attempted and a
storage-constraint violation is surfaced with the store unchanged. -/
def createAppointment (s : Store) (a : Appointment) : Store × CreateApptResult :=
  if checkConflict s a.professionalId a.appointmentDate a.appointmentTime then
    (s, CreateApptResult.conflictError)
  else
    match dbInsertAppointment s (scheduledRow a) with
    | some s1 => (s1, CreateApptResult.ok)
    | none => (s, CreateApptResult.constraintError)

/-- `AppointmentDetailsModal.updateStatus`: an unconditional
`update({status}).eq('id', ...)`, row-filtered by the appointment `UPDATE`
policies. -/
def updateStatus (s : Store) (uid apptId : Nat) (newStatus : ApptStatus) : Store :=
  { s with
    appointments := s.appointments.map (fun a =>
      if a.id == apptId && canUpdateAppt s uid a then { a with status := newStatus }
      else a) }

/-- Which status button the `AppointmentDetailsModal` renders for a given
current status: `statusButtonVisible current target` is the JSX visibility
condition of the button that calls `updateStatus target`.  No button targets
`scheduled`. -/
def statusButtonVisible : ApptStatus → ApptStatus → Bool
  | s, ApptStatus.confirmed =>
      !(s == ApptStatus.confirmed) && !(s == ApptStatus.completed) &&
        !(s == ApptStatus.cancelled)
  | s, ApptStatus.completed =>
      !(s == ApptStatus.completed) && !(s == ApptStatus.cancelled)
  | s, ApptStatus.cancelled =>
      !(s == ApptStatus.cancelled) && !(s == ApptStatus.completed)
  | _, ApptStatus.scheduled => false

/-! ### Cash-register closings -/

/-- Result of an attempt to open a closing. -/
inductive ClosingResult where
  | ok
  | duplicateClosing
  | constraintError
deriving DecidableEq

/-- Storage-level insert into `cash_register_closings`: the primary key and
the `UNIQUE (professional_id, closing_date)` constraint. -/
def dbInsertClosing (s : Store) (c : Closing) : Option Store :=
  if s.closings.any (fun d => d.id == c.id) then none
  else if s.closings.any (fun d =>
      d.professionalId == c.professionalId && d.closingDate == c.closingDate) then none
  else some { s with closings := s.closings ++ [c] }

/-- The row `CashRegister.createClosing` inserts: the caller's id, today's
date, `total_amount: 0`; `is_finalized` and `finalized_at` take the column
defaults `false` and `NULL`. -/
def freshClosing (newId uid today : Nat) : Closing :=
  { id := newId, professionalId := uid, closingDate := today,
    totalAmount := 0, notes := none, isFinalized := false, finalizedAt := none }

/-- `CashRegister.createClosing`: a `maybeSingle` pre-check for an existing
closing of the caller on today's date rejects with an alert and no write;
otherwise the insert is attempted and a constraint violation surfaces with
the store unchanged. -/
def createClosing (s : Store) (uid today newId : Nat) : Store × ClosingResult :=
  if s.closings.any (fun d => d.professionalId == uid && d.closingDate == today) then
    (s, ClosingResult.duplicateClosing)
  else
    match dbInsertClosing s (freshClosing newId uid today) with
    | some s1 => (s1, ClosingResult.ok)
    | none => (s, ClosingResult.constraintError)

/-- `update({total_amount}).eq('id', cid)` on `cash_register_closings`:
rows are updated only where the `UPDATE` policies admit them; a request
matching no row reports no error. -/
def updateClosingTotal (s : Store) (uid cid : Nat) (total : Int) : Store :=
  { s with
    closings := s.closings.map (fun c =>
      if c.id == cid && canUpdateClosing s uid c then { c with totalAmount := total }
      else c) }

/-- `TransactionsModal.finalizeClosing`:
`update({is_finalized: true, finalized_at: now}).eq('id', cid)`, row-filtered
by the closing `UPDATE` policies. -/
def finalizeClosing (s : Store) (uid cid now : Nat) : Store :=
  { s with
    closings := s.closings.map (fun c =>
      if c.id == cid && canUpdateClosing s uid c then
        { c with isFinalized := true, finalizedAt := some now }
      else c) }

/-! ### Cash-register transactions -/

/-- The transactions stored for a closing (`eq('closing_id', cid)`), in
`created_at` ascending order. -/
def closingTxns (s : Store) (cid : Nat) : List Txn :=
  s.transactions.filter (fun t => t.closingId == cid)

/-- Exact sum of a list of transaction amounts (cents). -/
def txnSum (ts : List Txn) : Int :=
  (ts.map (fun t => t.amount)).sum

/-- The `transactions` state of the `TransactionsModal`:
`loadTransactions` selects the closing's rows ordered `created_at`
descending, so the head is the most recently created one. -/
def modalTxns (s : Store) (cid : Nat) : List Txn :=
  (closingTxns s cid).reverse

/-- Result of a transaction mutation attempt. -/
inductive TxnResult where
  | ok
  | insertRejected
  | constraintError
deriving DecidableEq

/-- Storage-level insert into `cash_register_transactions`: the primary key,
the `CHECK (amount >= 0)` constraint and the `closing_id` foreign key. -/
def dbInsertTxn (s : Store) (t : Txn) : Option Store :=
  if s.transactions.any (fun u => u.id == t.id) then none
  else if t.amount < 0 then none
  else if !(s.closings.any (fun c => c.id == t.closingId)) then none
  else some { s with transactions := s.transactions ++ [t] }

/-- `AddTransactionModal.handleSubmit`: insert the transaction (subject to
row-level security and the table constraints; any failure is thrown before
the total is touched), then re-select every amount of the closing — a set
that already contains the new row — sum it, add `parseFloat(amount)` once
more, and write the result into the closing's `total_amount`. -/
def addTransaction (s : Store) (uid : Nat) (t : Txn) : Store × TxnResult :=
  if !(canInsertTxn s uid t) then (s, TxnResult.insertRejected)
  else
    match dbInsertTxn s t with
    | none => (s, TxnResult.constraintError)
    | some s1 =>
        let total := txnSum (closingTxns s1 t.closingId) + t.amount
        (updateClosingTotal s1 uid t.closingId total, TxnResult.ok)

/-- `delete().eq('id', txnId)` on `cash_register_transactions`: only rows
admitted by a `DELETE` policy's `USING` clause are removed; a request that
matches no removable row still reports success. -/
def rlsDeleteTxn (s : Store) (uid txnId : Nat) : Store :=
  { s with
    transactions := s.transactions.filter (fun t =>
      !(t.id == txnId && canDeleteTxn s uid t)) }

/-- The value `TransactionsModal.updateTotal` computes from the modal's
`transactions` state: the sum after filtering out every row whose id equals
`transactions[0]?.id` (for an empty list the comparison with `undefined`
keeps everything). -/
def updateTotalValue (txns : List Txn) : Int :=
  match txns.head? with
  | none => txnSum txns
  | some h => txnSum (txns.filter (fun t => !(t.id == h.id)))

/-- `TransactionsModal.deleteTransaction`: issue the storage delete (which
never reports an error), then — since no error was thrown — call
`updateTotal`, which recomputes from the modal state captured before the
delete and writes the closing's `total_amount` through the `UPDATE`
policies. -/
def deleteTransaction (s : Store) (uid cid txnId : Nat) : Store × TxnResult :=
  let txns := modalTxns s cid
  let s1 := rlsDeleteTxn s uid txnId
  (updateClosingTotal s1 uid cid (updateTotalValue txns), TxnResult.ok)

/-! ### Signup -/

/-- `AuthProvider.signUp`'s role choice: a head-count of the `profiles` table;
the profile is inserted with `super_admin` when the count is zero and with
`user` otherwise. -/
def signUpRole (s : Store) : Role :=
  if s.profiles.length == 0 then Role.superAdmin else Role.user

/-- `AuthProvider.signUp`: after the auth provider creates the identity, count
the existing profiles and insert the new profile with the role chosen by
`signUpRole` and `is_active: true`.  `none` is a surfaced profile-insert
error (primary key or unique-email violation). -/
def signUp (s : Store) (uid : Nat) (email fullName : String) : Option Store :=
  if s.profiles.any (fun q => q.id == uid || q.email == email) then none
  else
    some { s with
      profiles := s.profiles ++
        [{ id := uid, email := email, fullName := fullName,
           role := signUpRole s, isActive := true }] }

/-! ### Operation sequences

One constructor per user-initiated mutation modelled above; `run` executes a
sequence of request/response cycles. -/

/-- A user-initiated mutating request. -/
inductive Op where
  | createAppt (a : Appointment)
  | setStatus (uid apptId : Nat) (st : ApptStatus)
  | newClosing (uid today newId : Nat)
  | addTxn (uid : Nat) (t : Txn)
  | delTxn (uid cid txnId : Nat)
  | finalize (uid cid now : Nat)
  | signUpOp (uid : Nat) (email fullName : String)

/-- Execute one request against the store. -/
def step (s : Store) : Op → Store
  | Op.createAppt a => (createAppointment s a).1
  | Op.setStatus uid apptId st => updateStatus s uid apptId st
  | Op.newClosing uid today newId => (createClosing s uid today newId).1
  | Op.addTxn uid t => (addTransaction s uid t).1
  | Op.delTxn uid cid txnId => (deleteTransaction s uid cid txnId).1
  | Op.finalize uid cid now => finalizeClosing s uid cid now
  | Op.signUpOp uid email fullName => (signUp s uid email fullName).getD s

/-- Execute a sequence of requests. -/
def run (s : Store) : List Op → Store
  | [] => s
  | op :: ops => run (step s op) ops

/-- A closing with the given id exists and is finalized. -/
@[reducible] def finalizedIn (s : Store) (cid : Nat) : Prop :=
  ∃ c, c ∈ s.closings ∧ c.id = cid ∧ c.isFinalized = true

/-! ### Concrete scenario stores -/

/-- One professional (id 1), one open closing (id 1, total 0), no
transactions yet. -/
def emptyOpenStore : Store :=
  { profiles := [{ id := 1, email := "ana@clinic", fullName := "Ana",
                   role := Role.user, isActive := true }],
    appointments := [],
    closings := [{ id := 1, professionalId := 1, closingDate := 20240110,
                   totalAmount := 0, notes := none, isFinalized := false,
                   finalizedAt := none }],
    transactions := [] }

/-- One professional (id 1), one open closing (id 1, total 3000 = the exact
sum of its rows), and two transactions: id 1 for 1000 cents created first,
id 2 for 2000 cents created second. -/
def twoTxnOpenStore : Store :=
  { profiles := [{ id := 1, email := "ana@clinic", fullName := "Ana",
                   role := Role.user, isActive := true }],
    appointments := [],
    closings := [{ id := 1, professionalId := 1, closingDate := 20240110,
                   totalAmount := 3000, notes := none, isFinalized := false,
                   finalizedAt := none }],
    transactions := [{ id := 1, closingId := 1, appointmentId := none,
                       amount := 1000, paymentMethod := "Dinheiro", notes := none },
                     { id := 2, closingId := 1, appointmentId := none,
                       amount := 2000, paymentMethod := "PIX", notes := none }] }

/-- Same as `twoTxnOpenStore` but the closing is already finalized. -/
def twoTxnFinalizedStore : Store :=
  { twoTxnOpenStore with
    closings := [{ id := 1, professionalId := 1, closingDate := 20240110,
                   totalAmount := 3000, notes := none, isFinalized := true,
                   finalizedAt := some 500 }] }

/-- A store in which professional 10 holds a scheduled appointment on
2024-01-10 at 09:00. -/
def slotTakenStore : Store :=
  { profiles := [], closings := [], transactions := [],
    appointments := [{ id := 1, patientId := 1, procedureId := 1,
                       professionalId := 10, appointmentDate := 20240110,
                       appointmentTime := 900, status := ApptStatus.scheduled,
                       cancellationReason := none, createdBy := some 10 }] }

/-- Professional 10 tries to book patient 2 into the same slot. -/
def candidateSameProfessional : Appointment :=
  { id := 2, patientId := 2, procedureId := 1, professionalId := 10,
    appointmentDate := 20240110, appointmentTime := 900,
    status := ApptStatus.scheduled, cancellationReason := none,
    createdBy := some 10 }

/-- Professional 11 books patient 3 at the same date and time. -/
def candidateOtherProfessional : Appointment :=
  { id := 3, patientId := 3, procedureId := 1, professionalId := 11,
    appointmentDate := 20240110, appointmentTime := 900,
    status := ApptStatus.scheduled, cancellationReason := none,
    createdBy := some 11 }

/-- A store whose only appointment is a cancelled one of professional 10 in
the 2024-01-10 09:00 slot. -/
def cancelledSlotStore : Store :=
  { profiles := [], closings := [], transactions := [],
    appointments := [{ id := 1, patientId := 1, procedureId := 1,
                       professionalId := 10, appointmentDate := 20240110,
                       appointmentTime := 900, status := ApptStatus.cancelled,
                       cancellationReason := some "no-show",
                       createdBy := some 10 }] }

/-- At most one appointment row per
`(professional_id, appointment_date, appointment_time)` triple, regardless of
status. -/
@[reducible] def tripleUnique (s : Store) : Prop :=
  s.appointments.Pairwise (fun a b => sameTriple a b = false)

/-- Whether two closing rows agree on the `(professional_id, closing_date)`
pair. -/
def samePD (c d : Closing) : Bool :=
  c.professionalId == d.professionalId && c.closingDate == d.closingDate

/-- At most one closing row per `(professional_id, closing_date)` pair. -/
@[reducible] def closingPDUnique (s : Store) : Prop :=
  s.closings.Pairwise (fun c d => samePD c d = false)

/-- The amended transition table of claim C5, from the spec's wording as
corrected by the counterexample: `scheduled` may move to any of `confirmed`,
`completed` and `cancelled`; `confirmed` to `completed` or `cancelled`;
`completed` and `cancelled` are terminal. -/
def allowedNextTargets : ApptStatus → ApptStatus → Bool
  | ApptStatus.scheduled, ApptStatus.confirmed => true
  | ApptStatus.scheduled, ApptStatus.completed => true
  | ApptStatus.scheduled, ApptStatus.cancelled => true
  | ApptStatus.confirmed, ApptStatus.completed => true
  | ApptStatus.confirmed, ApptStatus.cancelled => true
  | _, _ => false

/-- One professional (id 1) and no closings yet. -/
def noClosingStore : Store :=
  { profiles := [{ id := 1, email := "ana@clinic", fullName := "Ana",
                   role := Role.user, isActive := true }],
    appointments := [], closings := [], transactions := [] }

/-- `noClosingStore` after professional 1 opened the 2024-01-10 closing. -/
def oneClosingStore : Store :=
  { noClosingStore with closings := [freshClosing 1 1 20240110] }

/-- The empty datastore: no profile has ever been created. -/
def store0 : Store :=
  { profiles := [], appointments := [], closings := [], transactions := [] }

/-- The profile the very first signup creates. -/
def adminProfile : Profile :=
  { id := 1, email := "ana@clinic", fullName := "Ana",
    role := Role.superAdmin, isActive := true }

/-- The profile the second signup creates. -/
def userProfile : Profile :=
  { id := 2, email := "bia@clinic", fullName := "Bia",
    role := Role.user, isActive := true }

/-- The store after the first signup. -/
def store1 : Store :=
  { profiles := [adminProfile], appointments := [], closings := [],
    transactions := [] }

/-- The store after the second signup. -/
def store2 : Store :=
  { profiles := [adminProfile, userProfile], appointments := [], closings := [],
    transactions := [] }

/-- Like `twoTxnOpenStore` with a third transaction: id 3 for 4000 cents,
created last. -/
def threeTxnOpenStore : Store :=
  { twoTxnOpenStore with
    closings := [{ id := 1, professionalId := 1, closingDate := 20240110,
                   totalAmount := 7000, notes := none, isFinalized := false,
                   finalizedAt := none }],
    transactions := twoTxnOpenStore.transactions ++
      [{ id := 3, closingId := 1, appointmentId := none,
         amount := 4000, paymentMethod := "PIX", notes := none }] }

end MissBelle

namespace MissBelle

/-! ## Claim theorems -/

/-- Claim C1 (code bug): adding a transaction does not leave `total_amount`
equal to the sum of the closing's current transactions.  On an open closing
with no prior transactions, adding a 1000-cent transaction succeeds, yet the
stored total becomes 2000 while the exact sum of the closing's current
transactions (the new row included) is 1000: `handleSubmit` re-selects the
full transaction set — which already contains the new row — and then adds the
new amount a second time. -/
theorem addTransaction_double_counts_total :
    (addTransaction emptyOpenStore 1
        { id := 1, closingId := 1, appointmentId := none, amount := 1000,
          paymentMethod := "Dinheiro", notes := none }).2 = TxnResult.ok ∧
    ((addTransaction emptyOpenStore 1
        { id := 1, closingId := 1, appointmentId := none, amount := 1000,
          paymentMethod := "Dinheiro", notes := none }).1.closings.map
      (fun c => c.totalAmount)) = [2000] ∧
    txnSum (closingTxns
      (addTransaction emptyOpenStore 1
        { id := 1, closingId := 1, appointmentId := none, amount := 1000,
          paymentMethod := "Dinheiro", notes := none }).1 1) = 1000 := by
  decide

/-- Claim C2 (code bug): deleting a transaction neither removes the row nor
recomputes `total_amount` as the sum of the remaining rows.  On an open
closing holding transactions 1 (1000 cents) and 2 (2000 cents), deleting
transaction 1 leaves both rows in place (`cash_register_transactions` has no
`DELETE` policy, so the delete silently matches nothing), and `updateTotal`
writes 1000 — the stale list minus its first element, transaction 2 — where
the claim requires the sum of the remaining rows (2000 had the row been
removed, 3000 as the store actually stands). -/
theorem deleteTransaction_misrecomputes_total :
    (deleteTransaction twoTxnOpenStore 1 1 1).1.transactions =
      twoTxnOpenStore.transactions ∧
    ((deleteTransaction twoTxnOpenStore 1 1 1).1.closings.map
      (fun c => c.totalAmount)) = [1000] ∧
    (deleteTransaction twoTxnOpenStore 1 1 1).2 = TxnResult.ok ∧
    txnSum ((closingTxns twoTxnOpenStore 1).filter (fun t => !(t.id == 1))) = 2000 := by
  decide

/-- Claim C5 counterexample: from `scheduled` the reachable next states are
not limited to `confirmed` and `cancelled` — the details modal also renders
the `Concluir` button for a `scheduled` appointment, so `completed` is
directly reachable. -/
theorem scheduled_can_jump_to_completed :
    ¬ (∀ t, statusButtonVisible ApptStatus.scheduled t = true →
        t = ApptStatus.confirmed ∨ t = ApptStatus.cancelled) := by
  decide

/-- Claim C5 (amended): the status buttons of `AppointmentDetailsModal` offer
exactly the forward transitions `scheduled → {confirmed, completed,
cancelled}` and `confirmed → {completed, cancelled}`; from `completed` or
`cancelled` no button is rendered, and no button ever targets `scheduled`. -/
theorem statusButtons_match_forward_table :
    ∀ s t, statusButtonVisible s t = allowedNextTargets s t := by
  decide

/-- Claim C3: if some existing appointment matches the candidate's
`(professional_id, appointment_date, appointment_time)` triple with a status
other than `cancelled`, creation is rejected with the conflict error and the
store is untouched; and when no appointment of the candidate's professional
occupies the slot at all (appointments of other professionals at the same
date and time notwithstanding), creation succeeds and inserts exactly the
scheduled row. -/
theorem createAppointment_conflict_scoped_per_professional
    (s : Store) (a : Appointment) :
    ((∃ b, b ∈ s.appointments ∧ b.professionalId = a.professionalId ∧
        b.appointmentDate = a.appointmentDate ∧
        b.appointmentTime = a.appointmentTime ∧
        b.status ≠ ApptStatus.cancelled) →
      createAppointment s a = (s, CreateApptResult.conflictError)) ∧
    ((∀ b ∈ s.appointments,
        ¬(b.professionalId = a.professionalId ∧
          b.appointmentDate = a.appointmentDate ∧
          b.appointmentTime = a.appointmentTime)) →
      (∀ b ∈ s.appointments, b.id ≠ a.id) →
      createAppointment s a =
        ({ s with appointments := s.appointments ++ [scheduledRow a] },
          CreateApptResult.ok)) := by
  constructor
  · rintro ⟨b, hb, h1, h2, h3, h4⟩
    have hc : checkConflict s a.professionalId a.appointmentDate
        a.appointmentTime = true := by
      unfold checkConflict
      rw [List.any_eq_true]
      refine ⟨b, hb, ?_⟩
      simp [h1, h2, h3, h4]
    simp [createAppointment, hc]
  · intro hTriple hId
    have hc : checkConflict s a.professionalId a.appointmentDate
        a.appointmentTime = false := by
      unfold checkConflict
      rw [List.any_eq_false]
      intro b hb
      simp only [Bool.and_eq_true, beq_iff_eq, Bool.not_eq_true',
        beq_eq_false_iff_ne, ne_eq]
      intro hcon
      exact hTriple b hb ⟨hcon.1.1.1, hcon.1.1.2, hcon.1.2⟩
    have hpk : s.appointments.any
        (fun b => b.id == (scheduledRow a).id) = false := by
      rw [List.any_eq_false]
      intro b hb
      simpa [scheduledRow] using hId b hb
    have htrip : s.appointments.any
        (fun b => sameTriple b (scheduledRow a)) = false := by
      rw [List.any_eq_false]
      intro b hb
      simp only [sameTriple, scheduledRow, Bool.and_eq_true, beq_iff_eq]
      intro hcon
      exact hTriple b hb ⟨hcon.1.1, hcon.1.2, hcon.2⟩
    simp [createAppointment, hc, dbInsertAppointment, hpk, htrip]

/-- Claim C3 witness: in `slotTakenStore`, professional 10's second booking of
the 2024-01-10 09:00 slot is rejected with the conflict error, while
professional 11's booking of the very same date and time succeeds. -/
theorem createAppointment_conflict_scoped_witness :
    createAppointment slotTakenStore candidateSameProfessional =
      (slotTakenStore, CreateApptResult.conflictError) ∧
    createAppointment slotTakenStore candidateOtherProfessional =
      ({ slotTakenStore with
          appointments := slotTakenStore.appointments ++
            [scheduledRow candidateOtherProfessional] },
        CreateApptResult.ok) := by
  exact ⟨(createAppointment_conflict_scoped_per_professional
            slotTakenStore candidateSameProfessional).1 (by decide),
         (createAppointment_conflict_scoped_per_professional
            slotTakenStore candidateOtherProfessional).2 (by decide) (by decide)⟩

/-- Claim C4: appointment creation preserves uniqueness of the
`(professional_id, appointment_date, appointment_time)` triple; and when the
slot's only occupants are cancelled appointments, the application-level
conflict check passes yet the insert is refused by the storage constraint,
leaving the store unchanged. -/
theorem appointment_triple_unique_cancelled_blocks
    (s : Store) (a : Appointment) :
    (tripleUnique s → tripleUnique (createAppointment s a).1) ∧
    ((∃ b, b ∈ s.appointments ∧ sameTriple b a = true) →
      (∀ b ∈ s.appointments, sameTriple b a = true →
        b.status = ApptStatus.cancelled) →
      checkConflict s a.professionalId a.appointmentDate
        a.appointmentTime = false ∧
      createAppointment s a = (s, CreateApptResult.constraintError)) := by
  constructor
  · intro hu
    unfold createAppointment
    split
    · exact hu
    · cases hdb : dbInsertAppointment s (scheduledRow a) with
      | none => exact hu
      | some s1 =>
          unfold dbInsertAppointment at hdb
          split at hdb
          · simp at hdb
          · split at hdb
            · simp at hdb
            · rename_i htrip
              simp only [Option.some.injEq] at hdb
              subst hdb
              have htrip2 : s.appointments.any
                  (fun b => sameTriple b (scheduledRow a)) = false := by
                simpa using htrip
              show (s.appointments ++ [scheduledRow a]).Pairwise
                (fun a b => sameTriple a b = false)
              rw [List.pairwise_append]
              refine ⟨hu, List.pairwise_singleton _ _, ?_⟩
              intro b hb c hc
              rw [List.mem_singleton] at hc
              subst hc
              have h2 := List.any_eq_false.mp htrip2 b hb
              simpa using h2
  · rintro ⟨b, hb, hbt⟩ hall
    have hc : checkConflict s a.professionalId a.appointmentDate
        a.appointmentTime = false := by
      unfold checkConflict
      rw [List.any_eq_false]
      intro d hd
      by_cases hdt : sameTriple d a = true
      · have := hall d hd hdt
        simp only [sameTriple, Bool.and_eq_true, beq_iff_eq] at hdt
        simp [this, hdt.1.1, hdt.1.2, hdt.2]
      · simp only [sameTriple, Bool.and_eq_true, beq_iff_eq] at hdt
        simp only [Bool.and_eq_true, beq_iff_eq, Bool.not_eq_true']
        intro hcon
        exact absurd ⟨⟨hcon.1.1.1, hcon.1.1.2⟩, hcon.1.2⟩ hdt
    have htrip : s.appointments.any
        (fun d => sameTriple d (scheduledRow a)) = true := by
      rw [List.any_eq_true]
      exact ⟨b, hb, by simpa [sameTriple, scheduledRow] using hbt⟩
    refine ⟨hc, ?_⟩
    unfold createAppointment dbInsertAppointment
    rw [hc]
    simp [htrip]

/-- No policy on `cash_register_transactions` covers `DELETE`, so no row is
ever visible to a delete. -/
lemma canDeleteTxn_false (s : Store) (uid : Nat) (t : Txn) :
    canDeleteTxn s uid t = false := rfl

/-- A `DELETE` on `cash_register_transactions` therefore removes nothing,
whatever the caller, the target row and the state of the parent closing. -/
lemma rlsDeleteTxn_id (s : Store) (uid txnId : Nat) :
    rlsDeleteTxn s uid txnId = s := by
  unfold rlsDeleteTxn
  have h : (fun t : Txn => !(t.id == txnId && canDeleteTxn s uid t)) =
      fun _ => true := by
    funext t
    rw [canDeleteTxn_false]
    simp
  rw [h, List.filter_true]

/-- Writing `total_amount` is a no-op when the caller is not a super admin
and every row with the targeted id is finalized: the `UPDATE` policies admit
no row, and a zero-row update reports no error. -/
lemma updateClosingTotal_noop (s : Store) (uid cid : Nat) (tot : Int)
    (hsup : isSuperAdminIn s uid = false)
    (hfin : ∀ c ∈ s.closings, c.id = cid → c.isFinalized = true) :
    updateClosingTotal s uid cid tot = s := by
  unfold updateClosingTotal
  have hm : ∀ c ∈ s.closings,
      (if c.id == cid && canUpdateClosing s uid c
        then { c with totalAmount := tot } else c) = c := by
    intro c hc
    have hcond : (c.id == cid && canUpdateClosing s uid c) = false := by
      by_cases hid : c.id = cid
      · have hf := hfin c hc hid
        unfold canUpdateClosing
        rw [hsup, hf]
        simp [hid]
      · simp [hid]
    rw [hcond]
    simp
  rw [List.map_congr_left hm, List.map_id']

/-- Claim C4 witness: in `cancelledSlotStore`, professional 10's attempt to
reuse the slot whose only appointment is cancelled passes the conflict
pre-check but the storage constraint refuses the insert; triple-uniqueness of
the store is preserved. -/
theorem appointment_triple_unique_cancelled_blocks_witness :
    tripleUnique (createAppointment cancelledSlotStore
      candidateSameProfessional).1 ∧
    checkConflict cancelledSlotStore 10 20240110 900 = false ∧
    createAppointment cancelledSlotStore candidateSameProfessional =
      (cancelledSlotStore, CreateApptResult.constraintError) := by
  refine ⟨(appointment_triple_unique_cancelled_blocks
            cancelledSlotStore candidateSameProfessional).1 (by decide),
          ?_, ?_⟩
  · exact ((appointment_triple_unique_cancelled_blocks
            cancelledSlotStore candidateSameProfessional).2
      (by decide) (by decide)).1
  · exact ((appointment_triple_unique_cancelled_blocks
            cancelledSlotStore candidateSameProfessional).2
      (by decide) (by decide)).2

/-- Claim C6 counterexample: on a finalized closing, the delete-transaction
call does not fail — the storage delete matches no row (there is no `DELETE`
policy) and reports success, so the client surfaces no error at all, against
the claim that every such call is rejected. -/
theorem deleteTransaction_on_finalized_reports_success :
    (∀ c ∈ twoTxnFinalizedStore.closings, c.isFinalized = true) ∧
    (deleteTransaction twoTxnFinalizedStore 1 1 1).2 = TxnResult.ok := by
  decide

/-- Claim C6 (amended): once a closing is finalized, for any caller without
the super-admin role an add-transaction call is rejected (no `INSERT` policy
admits the row) and leaves the store — `total_amount` included — untouched;
a delete-transaction call removes no row and leaves the store untouched as
well, but reports success instead of failing. -/
theorem finalized_closing_blocks_mutation
    (s : Store) (uid cid txnId : Nat) (t : Txn)
    (hsup : isSuperAdminIn s uid = false)
    (hfin : ∀ c ∈ s.closings, c.id = cid → c.isFinalized = true)
    (ht : t.closingId = cid) :
    addTransaction s uid t = (s, TxnResult.insertRejected) ∧
    deleteTransaction s uid cid txnId = (s, TxnResult.ok) := by
  have hown : s.closings.any (fun c => c.id == t.closingId &&
      c.professionalId == uid && c.isFinalized == false) = false := by
    rw [List.any_eq_false]
    intro c hc
    simp only [Bool.and_eq_true, beq_iff_eq]
    intro hcon
    have hf := hfin c hc (ht ▸ hcon.1.1)
    rw [hf] at hcon
    exact absurd hcon.2 (by simp)
  have hins : canInsertTxn s uid t = false := by
    show (s.closings.any (fun c => c.id == t.closingId &&
        c.professionalId == uid && c.isFinalized == false) ||
      (isSuperAdminIn s uid || false)) = false
    rw [hown, hsup]
    rfl
  constructor
  · simp [addTransaction, hins]
  · have hstep : deleteTransaction s uid cid txnId =
        (updateClosingTotal (rlsDeleteTxn s uid txnId) uid cid
          (updateTotalValue (modalTxns s cid)), TxnResult.ok) := rfl
    rw [hstep, rlsDeleteTxn_id, updateClosingTotal_noop s uid cid _ hsup hfin]

/-- Claim C6 witness: on the finalized closing of `twoTxnFinalizedStore`,
professional 1's attempt to add a 500-cent transaction is rejected with the
store unchanged, and the delete of transaction 1 changes nothing while
reporting success. -/
theorem finalized_closing_blocks_mutation_witness :
    addTransaction twoTxnFinalizedStore 1
      { id := 3, closingId := 1, appointmentId := none, amount := 500,
        paymentMethod := "PIX", notes := none } =
      (twoTxnFinalizedStore, TxnResult.insertRejected) ∧
    deleteTransaction twoTxnFinalizedStore 1 1 1 =
      (twoTxnFinalizedStore, TxnResult.ok) := by
  exact finalized_closing_blocks_mutation twoTxnFinalizedStore 1 1 1
    { id := 3, closingId := 1, appointmentId := none, amount := 500,
      paymentMethod := "PIX", notes := none }
    (by decide) (by decide) rfl

/-- Claim C7: an opened closing starts with `total_amount = 0` and
`is_finalized = false`; opening preserves uniqueness of the
`(professional_id, closing_date)` pair; when the professional has no closing
on the date (and the new id is fresh) the record is appended; and when one
already exists the attempt is rejected with nothing created and nothing
modified. -/
theorem createClosing_unique_and_initial (s : Store) (uid today newId : Nat) :
    (freshClosing newId uid today).totalAmount = 0 ∧
    (freshClosing newId uid today).isFinalized = false ∧
    (closingPDUnique s → closingPDUnique (createClosing s uid today newId).1) ∧
    ((∀ c ∈ s.closings, ¬(c.professionalId = uid ∧ c.closingDate = today)) →
      (∀ c ∈ s.closings, c.id ≠ newId) →
      createClosing s uid today newId =
        ({ s with closings := s.closings ++ [freshClosing newId uid today] },
          ClosingResult.ok)) ∧
    ((∃ c, c ∈ s.closings ∧ c.professionalId = uid ∧ c.closingDate = today) →
      createClosing s uid today newId = (s, ClosingResult.duplicateClosing)) := by
  refine ⟨rfl, rfl, ?_, ?_, ?_⟩
  · intro hu
    unfold createClosing
    split
    · exact hu
    · rename_i hpre
      have hpre2 : s.closings.any (fun d => d.professionalId == uid &&
          d.closingDate == today) = false := by
        simpa using hpre
      cases hdb : dbInsertClosing s (freshClosing newId uid today) with
      | none => exact hu
      | some s1 =>
          unfold dbInsertClosing at hdb
          split at hdb
          · simp at hdb
          · split at hdb
            · simp at hdb
            · simp only [Option.some.injEq] at hdb
              subst hdb
              show (s.closings ++ [freshClosing newId uid today]).Pairwise
                (fun c d => samePD c d = false)
              rw [List.pairwise_append]
              refine ⟨hu, List.pairwise_singleton _ _, ?_⟩
              intro c hc d hd
              rw [List.mem_singleton] at hd
              subst hd
              have h2 := List.any_eq_false.mp hpre2 c hc
              simpa [samePD, freshClosing] using h2
  · intro hno hid
    have hpre : s.closings.any (fun d => d.professionalId == uid &&
        d.closingDate == today) = false := by
      rw [List.any_eq_false]
      intro c hc
      simp only [Bool.and_eq_true, beq_iff_eq]
      intro hcon
      exact hno c hc ⟨hcon.1, hcon.2⟩
    have hpk : s.closings.any
        (fun d => d.id == (freshClosing newId uid today).id) = false := by
      rw [List.any_eq_false]
      intro c hc
      simpa [freshClosing] using hid c hc
    have hpre2 : s.closings.any (fun d =>
        d.professionalId == (freshClosing newId uid today).professionalId &&
        d.closingDate == (freshClosing newId uid today).closingDate) = false :=
      hpre
    simp [createClosing, dbInsertClosing, hpre, hpk, hpre2]
  · rintro ⟨c, hc, h1, h2⟩
    have hpre : s.closings.any (fun d => d.professionalId == uid &&
        d.closingDate == today) = true := by
      rw [List.any_eq_true]
      exact ⟨c, hc, by simp [h1, h2]⟩
    simp [createClosing, hpre]

/-- Claim C7 witness: in `noClosingStore`, professional 1 opens the
2024-01-10 closing and obtains the empty record; a second attempt on the
same professional and date is rejected as a duplicate with the store
unchanged, and pair-uniqueness holds afterwards. -/
theorem createClosing_unique_and_initial_witness :
    createClosing noClosingStore 1 20240110 1 =
      (oneClosingStore, ClosingResult.ok) ∧
    createClosing oneClosingStore 1 20240110 2 =
      (oneClosingStore, ClosingResult.duplicateClosing) ∧
    closingPDUnique (createClosing oneClosingStore 1 20240110 2).1 := by
  refine ⟨?_, ?_, ?_⟩
  · exact (createClosing_unique_and_initial noClosingStore 1 20240110 1).2.2.2.1
      (by decide) (by decide)
  · exact (createClosing_unique_and_initial oneClosingStore 1 20240110 2).2.2.2.2
      (by decide)
  · exact (createClosing_unique_and_initial oneClosingStore 1 20240110 2).2.2.1
      (by decide)

/-- Pushing a finalized closing through an element-wise table update that
preserves ids and never clears the finalized flag keeps it finalized. -/
lemma finalizedIn_map (l : List Closing) (cid : Nat) (f : Closing → Closing)
    (hf : ∀ c, c.id = cid → c.isFinalized = true →
      (f c).id = cid ∧ (f c).isFinalized = true) :
    (∃ c, c ∈ l ∧ c.id = cid ∧ c.isFinalized = true) →
    ∃ c, c ∈ l.map f ∧ c.id = cid ∧ c.isFinalized = true := by
  rintro ⟨c, hc, hid, hfin⟩
  exact ⟨f c, List.mem_map_of_mem f hc, (hf c hid hfin).1, (hf c hid hfin).2⟩

/-- Writing a new `total_amount` never clears a finalized flag. -/
lemma finalizedIn_updateClosingTotal (s : Store) (uid cid2 : Nat) (tot : Int)
    (cid : Nat) :
    finalizedIn s cid → finalizedIn (updateClosingTotal s uid cid2 tot) cid := by
  intro h
  unfold updateClosingTotal
  refine finalizedIn_map s.closings cid _ ?_ h
  intro c hid hfin
  constructor
  · split <;> simp [hid]
  · split <;> simp [hfin]

/-- Finalizing (any closing, by any caller) never clears a finalized flag. -/
lemma finalizedIn_finalizeClosing (s : Store) (uid cid2 now cid : Nat) :
    finalizedIn s cid → finalizedIn (finalizeClosing s uid cid2 now) cid := by
  intro h
  unfold finalizeClosing
  refine finalizedIn_map s.closings cid _ ?_ h
  intro c hid hfin
  constructor
  · split <;> simp [hid]
  · split <;> simp [hfin]

/-- Creating an appointment never touches the closings table. -/
lemma createAppointment_closings (s : Store) (a : Appointment) :
    (createAppointment s a).1.closings = s.closings := by
  unfold createAppointment
  split
  · rfl
  · cases hdb : dbInsertAppointment s (scheduledRow a) with
    | none => rfl
    | some s1 =>
        unfold dbInsertAppointment at hdb
        split at hdb
        · simp at hdb
        · split at hdb
          · simp at hdb
          · simp only [Option.some.injEq] at hdb
            subst hdb
            rfl

/-- Opening a closing only ever appends to the closings table. -/
lemma createClosing_closings_mem (s : Store) (uid today newId : Nat)
    (c : Closing) (hc : c ∈ s.closings) :
    c ∈ (createClosing s uid today newId).1.closings := by
  unfold createClosing
  split
  · exact hc
  · cases hdb : dbInsertClosing s (freshClosing newId uid today) with
    | none => exact hc
    | some s1 =>
        unfold dbInsertClosing at hdb
        split at hdb
        · simp at hdb
        · split at hdb
          · simp at hdb
          · simp only [Option.some.injEq] at hdb
            subst hdb
            exact List.mem_append_left _ hc

/-- Adding a transaction never clears a finalized flag: the only closings
write it performs is the `total_amount` update. -/
lemma addTransaction_finalizedIn (s : Store) (uid : Nat) (t : Txn) (cid : Nat) :
    finalizedIn s cid → finalizedIn (addTransaction s uid t).1 cid := by
  intro h
  unfold addTransaction
  split
  · exact h
  · cases hdb : dbInsertTxn s t with
    | none => exact h
    | some s1 =>
        have hcl : s1.closings = s.closings := by
          unfold dbInsertTxn at hdb
          split at hdb
          · simp at hdb
          · split at hdb
            · simp at hdb
            · split at hdb
              · simp at hdb
              · simp only [Option.some.injEq] at hdb
                subst hdb
                rfl
        refine finalizedIn_updateClosingTotal s1 uid t.closingId _ cid ?_
        obtain ⟨c, hc, hid, hfin⟩ := h
        exact ⟨c, by rw [hcl]; exact hc, hid, hfin⟩

/-- Deleting a transaction never clears a finalized flag. -/
lemma deleteTransaction_finalizedIn (s : Store) (uid cid2 txnId cid : Nat) :
    finalizedIn s cid → finalizedIn (deleteTransaction s uid cid2 txnId).1 cid := by
  intro h
  have hstep : (deleteTransaction s uid cid2 txnId).1 =
      updateClosingTotal (rlsDeleteTxn s uid txnId) uid cid2
        (updateTotalValue (modalTxns s cid2)) := rfl
  rw [hstep, rlsDeleteTxn_id]
  exact finalizedIn_updateClosingTotal s uid cid2 _ cid h

/-- Signup never touches the closings table. -/
lemma signUp_closings (s : Store) (uid : Nat) (email fullName : String) :
    ((signUp s uid email fullName).getD s).closings = s.closings := by
  unfold signUp
  split
  · rfl
  · rfl

/-- No single modelled request clears a finalized flag. -/
lemma finalizedIn_step (s : Store) (op : Op) (cid : Nat)
    (h : finalizedIn s cid) : finalizedIn (step s op) cid := by
  cases op with
  | createAppt a =>
      obtain ⟨c, hc, hid, hfin⟩ := h
      refine ⟨c, ?_, hid, hfin⟩
      show c ∈ (createAppointment s a).1.closings
      rw [createAppointment_closings]
      exact hc
  | setStatus uid apptId st =>
      obtain ⟨c, hc, hid, hfin⟩ := h
      exact ⟨c, hc, hid, hfin⟩
  | newClosing uid today newId =>
      obtain ⟨c, hc, hid, hfin⟩ := h
      exact ⟨c, createClosing_closings_mem s uid today newId c hc, hid, hfin⟩
  | addTxn uid t => exact addTransaction_finalizedIn s uid t cid h
  | delTxn uid cid2 txnId => exact deleteTransaction_finalizedIn s uid cid2 txnId cid h
  | finalize uid cid2 now => exact finalizedIn_finalizeClosing s uid cid2 now cid h
  | signUpOp uid email fullName =>
      obtain ⟨c, hc, hid, hfin⟩ := h
      refine ⟨c, ?_, hid, hfin⟩
      show c ∈ ((signUp s uid email fullName).getD s).closings
      rw [signUp_closings]
      exact hc

/-- No sequence of modelled requests clears a finalized flag. -/
lemma finalizedIn_run (s : Store) (ops : List Op) (cid : Nat)
    (h : finalizedIn s cid) : finalizedIn (run s ops) cid := by
  induction ops generalizing s with
  | nil => exact h
  | cons op ops ih => exact ih (step s op) (finalizedIn_step s op cid h)

/-- Claim C8: finalizing an open closing owned by the caller rewrites its row
with `is_finalized = true` and `finalized_at` stamped with the request time;
and once some closing id is finalized, it remains finalized after every
sequence of modelled operations — no reachable operation resets the flag. -/
theorem finalize_sets_flag_and_is_irreversible
    (s : Store) (uid cid now : Nat) (ops : List Op) :
    (∀ c ∈ s.closings, c.id = cid → c.professionalId = uid →
      c.isFinalized = false →
      { c with isFinalized := true, finalizedAt := some now } ∈
        (finalizeClosing s uid cid now).closings) ∧
    (finalizedIn s cid → finalizedIn (run s ops) cid) := by
  constructor
  · intro c hc hid hprof hopen
    have hcond : (c.id == cid && canUpdateClosing s uid c) = true := by
      unfold canUpdateClosing
      simp [hid, hprof, hopen]
    have hmem := List.mem_map_of_mem
      (fun c => if c.id == cid && canUpdateClosing s uid c then
        { c with isFinalized := true, finalizedAt := some now } else c) hc
    simp only [hcond, if_true] at hmem
    exact hmem
  · exact fun h => finalizedIn_run s ops cid h

/-- Claim C8 witness: finalizing professional 1's open closing yields the
finalized, time-stamped row; and the finalized closing of
`twoTxnFinalizedStore` is still finalized after a delete attempt, an add
attempt and a repeated finalize. -/
theorem finalize_sets_flag_and_is_irreversible_witness :
    ({ id := 1, professionalId := 1, closingDate := 20240110,
       totalAmount := 0, notes := none, isFinalized := true,
       finalizedAt := some 7 } : Closing) ∈
      (finalizeClosing emptyOpenStore 1 1 7).closings ∧
    finalizedIn (run twoTxnFinalizedStore
      [Op.delTxn 1 1 1,
       Op.addTxn 1 { id := 9, closingId := 1, appointmentId := none,
                     amount := 500, paymentMethod := "PIX", notes := none },
       Op.finalize 1 1 9]) 1 := by
  constructor
  · exact (finalize_sets_flag_and_is_irreversible emptyOpenStore 1 1 7 []).1
      { id := 1, professionalId := 1, closingDate := 20240110,
        totalAmount := 0, notes := none, isFinalized := false,
        finalizedAt := none }
      (by decide) rfl rfl rfl
  · exact (finalize_sets_flag_and_is_irreversible twoTxnFinalizedStore 1 1 9
      [Op.delTxn 1 1 1,
       Op.addTxn 1 { id := 9, closingId := 1, appointmentId := none,
                     amount := 500, paymentMethod := "PIX", notes := none },
       Op.finalize 1 1 9]).2 (by decide)

/-- Claim C9: a signup that finds the `profiles` table empty creates the
system's very first profile with role `super_admin`; a signup against a
non-empty table appends a profile with role `user`, leaving every existing
profile as it was. -/
theorem first_signup_super_admin_rest_user
    (s : Store) (uid : Nat) (email fullName : String) (t : Store) :
    (s.profiles = [] → signUp s uid email fullName = some t →
      t.profiles = [{ id := uid, email := email, fullName := fullName,
                      role := Role.superAdmin, isActive := true }]) ∧
    (s.profiles ≠ [] → signUp s uid email fullName = some t →
      t.profiles = s.profiles ++
        [{ id := uid, email := email, fullName := fullName,
           role := Role.user, isActive := true }]) := by
  constructor
  · intro hempty hsu
    unfold signUp at hsu
    split at hsu
    · simp at hsu
    · simp only [Option.some.injEq] at hsu
      subst hsu
      show s.profiles ++ [{ id := uid, email := email, fullName := fullName,
                            role := signUpRole s, isActive := true }] = _
      have hrole : signUpRole s = Role.superAdmin := by
        unfold signUpRole
        rw [hempty]
        rfl
      rw [hempty, hrole]
      rfl
  · intro hne hsu
    unfold signUp at hsu
    split at hsu
    · simp at hsu
    · simp only [Option.some.injEq] at hsu
      subst hsu
      show s.profiles ++ [{ id := uid, email := email, fullName := fullName,
                            role := signUpRole s, isActive := true }] = _
      have hrole : signUpRole s = Role.user := by
        unfold signUpRole
        cases hp : s.profiles with
        | nil => exact absurd hp hne
        | cons a l => rfl
      rw [hrole]

/-- Claim C9 witness: on the empty store the first signup creates the
super-admin profile; the second signup then appends a plain user profile. -/
theorem first_signup_super_admin_rest_user_witness :
    store1.profiles = [adminProfile] ∧
    store2.profiles = store1.profiles ++ [userProfile] := by
  constructor
  · exact (first_signup_super_admin_rest_user store0 1 "ana@clinic" "Ana"
      store1).1 rfl (by decide)
  · exact (first_signup_super_admin_rest_user store1 2 "bia@clinic" "Bia"
      store2).2 (by decide) (by decide)

/-- Claim C10 counterexample: the written total is not "as if the deleted row
were gone" in general.  In `threeTxnOpenStore` (open closing; transactions 1,
2 and 3 for 1000, 2000 and 4000 cents), deleting transaction 1 removes
nothing and writes 3000 — the stale list minus its most recent entry — while
the sum with transaction 1 gone would be 6000. -/
theorem deleteTransaction_not_as_if_row_gone :
    (deleteTransaction threeTxnOpenStore 1 1 1).1.transactions =
      threeTxnOpenStore.transactions ∧
    ((deleteTransaction threeTxnOpenStore 1 1 1).1.closings.map
      (fun c => c.totalAmount)) = [3000] ∧
    txnSum ((closingTxns threeTxnOpenStore 1).filter
      (fun t => !(t.id == 1))) = 6000 := by
  decide

/-- Claim C10 (amended): the policy set on `cash_register_transactions`
consists of `SELECT` and `INSERT` policies only, so a storage-level delete
removes no row and reports no error, whatever the caller and even while the
parent closing is open; the client's `deleteTransaction` then proceeds to
recompute and write `total_amount` from its stale list minus the first-listed
(most recently created) transaction — which coincides with "as if the row
were gone" exactly when the deleted row is that first-listed one, as in the
hypotheses below. -/
theorem txn_rls_delete_silent_and_client_writes_total
    (s : Store) (uid cid txnId : Nat) (t : Txn) (rest : List Txn)
    (hmodal : modalTxns s cid = t :: rest)
    (hid : t.id = txnId)
    (hown : ∀ c ∈ s.closings, c.id = cid →
      c.professionalId = uid ∧ c.isFinalized = false) :
    cashRegisterTransactionsPolicies.all
      (fun p => p.cmd == Cmd.select || p.cmd == Cmd.insert) = true ∧
    (∀ s2 uid2 txnId2, rlsDeleteTxn s2 uid2 txnId2 = s2) ∧
    (deleteTransaction s uid cid txnId).1.transactions = s.transactions ∧
    (deleteTransaction s uid cid txnId).2 = TxnResult.ok ∧
    (∀ c ∈ s.closings, c.id = cid →
      { c with totalAmount := txnSum ((closingTxns s cid).filter
          (fun u => !(u.id == txnId))) } ∈
        (deleteTransaction s uid cid txnId).1.closings) := by
  have hval : txnSum ((closingTxns s cid).filter
      (fun u => !(u.id == txnId))) = updateTotalValue (modalTxns s cid) := by
    have hc : closingTxns s cid = (modalTxns s cid).reverse := by
      unfold modalTxns
      rw [List.reverse_reverse]
    rw [hc, hmodal]
    unfold updateTotalValue
    simp only [List.head?_cons]
    rw [← hid, List.filter_reverse]
    unfold txnSum
    rw [List.map_reverse, List.sum_reverse]
  have hstep : (deleteTransaction s uid cid txnId).1 =
      updateClosingTotal s uid cid (updateTotalValue (modalTxns s cid)) := by
    show updateClosingTotal (rlsDeleteTxn s uid txnId) uid cid
        (updateTotalValue (modalTxns s cid)) = _
    rw [rlsDeleteTxn_id]
  refine ⟨rfl, fun s2 uid2 txnId2 => rlsDeleteTxn_id s2 uid2 txnId2, ?_, rfl, ?_⟩
  · rw [hstep]
    rfl
  · intro c hc hcid
    have h := hown c hc hcid
    have hcond : (c.id == cid && canUpdateClosing s uid c) = true := by
      unfold canUpdateClosing
      simp [hcid, h.1, h.2]
    rw [hval, hstep]
    unfold updateClosingTotal
    have hmem := List.mem_map_of_mem
      (fun c => if c.id == cid && canUpdateClosing s uid c then
        { c with totalAmount := updateTotalValue (modalTxns s cid) } else c) hc
    simp only [hcond, if_true] at hmem
    exact hmem

/-- Claim C10 witness: in `twoTxnOpenStore` (open closing; transactions 1 and
2 for 1000 and 2000 cents), deleting the most recent transaction 2 removes
nothing yet the client writes 1000 — the total without transaction 2 — into
the still-open closing. -/
theorem txn_rls_delete_silent_witness :
    cashRegisterTransactionsPolicies.all
      (fun p => p.cmd == Cmd.select || p.cmd == Cmd.insert) = true ∧
    rlsDeleteTxn twoTxnOpenStore 1 2 = twoTxnOpenStore ∧
    (deleteTransaction twoTxnOpenStore 1 1 2).1.transactions =
      twoTxnOpenStore.transactions ∧
    ({ id := 1, professionalId := 1, closingDate := 20240110,
       totalAmount := 1000, notes := none, isFinalized := false,
       finalizedAt := none } : Closing) ∈
      (deleteTransaction twoTxnOpenStore 1 1 2).1.closings := by
  have h := txn_rls_delete_silent_and_client_writes_total twoTxnOpenStore 1 1 2
    { id := 2, closingId := 1, appointmentId := none, amount := 2000,
      paymentMethod := "PIX", notes := none }
    [{ id := 1, closingId := 1, appointmentId := none, amount := 1000,
       paymentMethod := "Dinheiro", notes := none }]
    (by decide) rfl (by decide)
  exact ⟨h.1, h.2.1 twoTxnOpenStore 1 2, h.2.2.1,
    h.2.2.2.2 { id := 1, professionalId := 1, closingDate := 20240110,
                totalAmount := 3000, notes := none, isFinalized := false,
                finalizedAt := none } (by decide) rfl⟩

end MissBelle
